import Mathlib

/-!
Verification development for the integrator dashboard front end.

The definitions below are shallow embeddings of the client-side logic of the
repository: the diff browser's filtering, grouping, selection and navigation
state (components `DisplaySnapshotDiff`), the shared HTTP client's request and
response interceptors (`services/api.ts`), the auth provider's mount behaviour,
and the collection-import list update.  JavaScript strings are modelled as Lean
`String`, JavaScript `null`/`undefined` as `Option`, and browser-global state
(localStorage, `window.location.href`) as an explicit record threaded through
the interceptor logic.
-/

namespace Integrator

/-! ## JavaScript string primitives used by the components -/

/-- Models `s.toLowerCase()`. -/
def lowerStr (s : String) : String :=
  String.mk (s.data.map Char.toLower)

/-- Helper for `String.prototype.includes`: does `needle` occur as a
contiguous run inside `hay`?  (The empty needle occurs in every string.) -/
def containsAux : List Char → List Char → Bool
  | [], needle => needle.isEmpty
  | h :: t, needle => needle.isPrefixOf (h :: t) || containsAux t needle

/-- Models `hay.includes(needle)`. -/
def strIncludes (hay needle : String) : Bool :=
  containsAux hay.data needle.data

/-- Case-insensitive containment, as the components compute it:
`hay.toLowerCase().includes(needle.toLowerCase())`. -/
def containsCI (hay needle : String) : Bool :=
  strIncludes (lowerStr hay) (lowerStr needle)

/-- Models `s.charAt(0).toUpperCase() + s.slice(1)`. -/
def capitalizeJS (s : String) : String :=
  match s.data with
  | [] => ""
  | ch :: rest => String.mk (Char.toUpper ch :: rest)

/-- Radix-10 `parseInt`: skip leading whitespace, optional sign, then a maximal
run of decimal digits; `none` models `NaN` (no digits found). -/
def jsParseInt (s : String) : Option Int :=
  let cs := s.data.dropWhile Char.isWhitespace
  let signAndRest : Int × List Char :=
    match cs with
    | '-' :: t => (-1, t)
    | '+' :: t => (1, t)
    | _ => (1, cs)
  let ds := signAndRest.2.takeWhile Char.isDigit
  if ds.isEmpty then none
  else some (signAndRest.1 * Int.ofNat (ds.foldl (fun a c => a * 10 + (c.toNat - '0'.toNat)) 0))

/-! ## Data model of the diff browser (`DisplaySnapshotDiff`) -/

inductive ChangeType where
  | added
  | deleted
  | modified
deriving DecidableEq, Repr

def changeTypeStr : ChangeType → String
  | ChangeType.added => "added"
  | ChangeType.deleted => "deleted"
  | ChangeType.modified => "modified"

/-- One entry of the backend diff payload (`DiffDetail`); only the fields read
by the filtering/grouping/navigation logic are carried. -/
structure DiffDetail where
  id : Nat
  change_type : ChangeType
  path : String
  human_path : String
  endpoint_name : Option String
deriving DecidableEq, Repr

/-- The backend diff payload (`DiffResponse`); only the fields the modelled
state logic reads. -/
structure DiffResponse where
  old_snapshot_id : Nat
  new_snapshot_id : Nat
  changes : List DiffDetail
deriving DecidableEq, Repr

inductive FilterType where
  | all
  | added
  | deleted
  | modified
deriving DecidableEq, Repr

def filterTypeStr : FilterType → String
  | FilterType.all => "all"
  | FilterType.added => "added"
  | FilterType.deleted => "deleted"
  | FilterType.modified => "modified"

def filterTypeOfChange : ChangeType → FilterType
  | ChangeType.added => FilterType.added
  | ChangeType.deleted => FilterType.deleted
  | ChangeType.modified => FilterType.modified

inductive GroupBy where
  | none
  | endpoint
  | type
deriving DecidableEq, Repr

def groupByStr : GroupBy → String
  | GroupBy.none => "none"
  | GroupBy.endpoint => "endpoint"
  | GroupBy.type => "type"

/-! ## Client-side filtering (`filteredChanges` in `DisplaySnapshotDiff`) -/

/-- Models `matchesSearch`: `searchTerm === '' || human_path.toLowerCase().includes(s)
|| path.toLowerCase().includes(s) || (endpoint_name &&
endpoint_name.toLowerCase().includes(s))` — an absent or empty
`endpoint_name` is falsy in JavaScript, so it contributes `false`. -/
def matchesSearch (searchTerm : String) (change : DiffDetail) : Bool :=
  decide (searchTerm = "") ||
  containsCI change.human_path searchTerm ||
  containsCI change.path searchTerm ||
  (match change.endpoint_name with
   | some e => decide (e ≠ "") && containsCI e searchTerm
   | none => false)

/-- Models `matchesFilter`: `filterType === 'all' || change.change_type === filterType`. -/
def matchesFilter (filterType : FilterType) (change : DiffDetail) : Bool :=
  decide (filterType = FilterType.all) ||
  decide (filterTypeOfChange change.change_type = filterType)

/-- Models `filteredChanges = diffData.changes.filter(c => matchesSearch && matchesFilter)`. -/
def filteredChanges (changes : List DiffDetail) (searchTerm : String)
    (filterType : FilterType) : List DiffDetail :=
  changes.filter (fun c => matchesSearch searchTerm c && matchesFilter filterType c)

/-! ### Facts about the search predicate -/

theorem lowerStr_data (s : String) : (lowerStr s).data = s.data.map Char.toLower := rfl

theorem strIncludes_empty_hay (needle : String) :
    strIncludes "" needle = needle.data.isEmpty := rfl

theorem containsCI_empty_hay {s : String} (hs : s ≠ "") : containsCI "" s = false := by
  have hdata : s.data ≠ [] := fun h => hs (by cases s with | mk d => simpa using congrArg String.mk h)
  unfold containsCI strIncludes lowerStr
  simp only [String.data]
  cases hd : s.data with
  | nil => exact absurd hd hdata
  | cons c t => simp [containsAux]

theorem matchesSearch_iff (searchTerm : String) (change : DiffDetail) :
    matchesSearch searchTerm change = true ↔
      (searchTerm = "" ∨ containsCI change.human_path searchTerm = true ∨
        containsCI change.path searchTerm = true ∨
        (∃ e, change.endpoint_name = some e ∧ containsCI e searchTerm = true)) := by
  by_cases hs : searchTerm = ""
  · subst hs
    simp [matchesSearch]
  · unfold matchesSearch
    cases he : change.endpoint_name with
    | none =>
      simp [hs, he]
    | some e =>
      by_cases hee : e = ""
      · subst hee
        have : containsCI "" searchTerm = false := containsCI_empty_hay hs
        simp [hs, this]
      · simp [hs, hee, or_assoc]

theorem matchesFilter_iff (filterType : FilterType) (change : DiffDetail) :
    matchesFilter filterType change = true ↔
      (filterType = FilterType.all ∨ filterTypeOfChange change.change_type = filterType) := by
  simp [matchesFilter]

/-- C1: For every change list, search string `s` and type filter `T`, the
filtered list is a sublist of the original (subset, order preserved); a change
is in it exactly when it is in the original list, matches the search (`s`
empty, or `human_path`, `path`, or a present `endpoint_name` contains `s`
case-insensitively), and matches the type filter (`T = all` or its change type
equals `T`); with `T = all` and `s` empty the filtered list is the original
list unchanged. -/
theorem filteredChanges_spec (changes : List DiffDetail) (s : String) (T : FilterType) :
    List.Sublist (filteredChanges changes s T) changes
    ∧ (∀ c, c ∈ filteredChanges changes s T ↔
        c ∈ changes
        ∧ (s = "" ∨ containsCI c.human_path s = true ∨ containsCI c.path s = true ∨
            (∃ e, c.endpoint_name = some e ∧ containsCI e s = true))
        ∧ (T = FilterType.all ∨ filterTypeOfChange c.change_type = T))
    ∧ (T = FilterType.all → s = "" → filteredChanges changes s T = changes) := by
  refine ⟨List.filter_sublist _, fun c => ?_, fun hT hs => ?_⟩
  · rw [filteredChanges, List.mem_filter, Bool.and_eq_true,
      matchesSearch_iff, matchesFilter_iff]
  · subst hT; subst hs
    rw [filteredChanges, List.filter_eq_self]
    intro c _
    simp [matchesSearch, matchesFilter]

/-- Witness for C1 at a concrete change list: with filter `all` and an empty
search the filter is the identity. -/
theorem filteredChanges_spec_witness :
    filteredChanges
      [{ id := 1, change_type := ChangeType.added, path := "item[0].request.url",
         human_path := "GET /users", endpoint_name := some "Get Users" },
       { id := 2, change_type := ChangeType.modified, path := "item[1].response.body",
         human_path := "GET /orders", endpoint_name := Option.none }] "" FilterType.all
    = [{ id := 1, change_type := ChangeType.added, path := "item[0].request.url",
         human_path := "GET /users", endpoint_name := some "Get Users" },
       { id := 2, change_type := ChangeType.modified, path := "item[1].response.body",
         human_path := "GET /orders", endpoint_name := Option.none }] :=
  (filteredChanges_spec _ "" FilterType.all).2.2 rfl rfl

/-! ## Client-side grouping (`groupedChanges` in `DisplaySnapshotDiff`) -/

/-- The group label for one change: `endpoint_name || 'Collection Level'` when
grouping by endpoint (an absent or empty name is falsy), otherwise the
capitalized change type. -/
def groupKey (groupBy : GroupBy) (change : DiffDetail) : String :=
  match groupBy with
  | GroupBy.endpoint =>
    match change.endpoint_name with
    | some e => if e = "" then "Collection Level" else e
    | Option.none => "Collection Level"
  | _ => capitalizeJS (changeTypeStr change.change_type)

/-- Models `if (!groups[key]) groups[key] = []; groups[key].push(change)` on an
insertion-ordered string-keyed record, modelled as an association list. -/
def addToGroup : List (String × List DiffDetail) → String → DiffDetail →
    List (String × List DiffDetail)
  | [], key, change => [(key, [change])]
  | g :: gs, key, change =>
    if g.1 = key then (g.1, g.2 ++ [change]) :: gs
    else g :: addToGroup gs key change

/-- Models `groupedChanges()`: a single `'All Changes'` bucket when not grouping,
otherwise a `forEach` over the filtered changes pushing each into the record
entry for its group key. -/
def groupedChanges (groupBy : GroupBy) (filtered : List DiffDetail) :
    List (String × List DiffDetail) :=
  if groupBy = GroupBy.none then [("All Changes", filtered)]
  else filtered.foldl (fun gs c => addToGroup gs (groupKey groupBy c) c) []

/-! ### Facts about grouping -/

theorem addToGroup_flatten_perm (gs : List (String × List DiffDetail)) (key : String)
    (change : DiffDetail) :
    List.Perm ((addToGroup gs key change).map Prod.snd).flatten
      (((gs.map Prod.snd).flatten) ++ [change]) := by
  induction gs with
  | nil => simp [addToGroup]
  | cons g gs ih =>
    by_cases h : g.1 = key
    · simp only [addToGroup, if_pos h, List.map_cons, List.flatten_cons]
      rw [List.append_assoc, List.append_assoc]
      exact List.Perm.append_left g.2 List.perm_append_comm
    · simp only [addToGroup, if_neg h, List.map_cons, List.flatten_cons]
      rw [List.append_assoc]
      exact List.Perm.append_left g.2 ih

theorem foldl_addToGroup_flatten_perm (keyOf : DiffDetail → String)
    (l : List DiffDetail) :
    ∀ gs : List (String × List DiffDetail),
      List.Perm (((l.foldl (fun a c => addToGroup a (keyOf c) c) gs).map Prod.snd).flatten)
        (((gs.map Prod.snd).flatten) ++ l) := by
  induction l with
  | nil => intro gs; simp
  | cons c t ih =>
    intro gs
    rw [List.foldl_cons]
    refine (ih (addToGroup gs (keyOf c) c)).trans ?_
    have h2 : List.Perm ((((addToGroup gs (keyOf c) c).map Prod.snd).flatten) ++ t)
        ((((gs.map Prod.snd).flatten) ++ [c]) ++ t) :=
      (addToGroup_flatten_perm gs (keyOf c) c).append_right t
    simpa [List.append_assoc] using h2

theorem addToGroup_keys (gs : List (String × List DiffDetail)) (key : String)
    (change : DiffDetail) :
    (addToGroup gs key change).map Prod.fst =
      if key ∈ gs.map Prod.fst then gs.map Prod.fst else gs.map Prod.fst ++ [key] := by
  induction gs with
  | nil => simp [addToGroup]
  | cons g gs ih =>
    by_cases h : g.1 = key
    · simp [addToGroup, h]
    · have hne : ¬key = g.1 := fun hk => h hk.symm
      by_cases hmem : key ∈ gs.map Prod.fst
      · simp [addToGroup, h, ih, hmem, hne]
      · simp [addToGroup, h, ih, hmem, hne]

theorem addToGroup_keys_nodup {gs : List (String × List DiffDetail)} (key : String)
    (change : DiffDetail) (h : (gs.map Prod.fst).Nodup) :
    ((addToGroup gs key change).map Prod.fst).Nodup := by
  rw [addToGroup_keys]
  by_cases hmem : key ∈ gs.map Prod.fst
  · simpa [hmem] using h
  · simpa [hmem, List.nodup_append] using h

theorem foldl_addToGroup_keys_nodup (keyOf : DiffDetail → String) (l : List DiffDetail) :
    ∀ gs : List (String × List DiffDetail), (gs.map Prod.fst).Nodup →
      (((l.foldl (fun a c => addToGroup a (keyOf c) c) gs)).map Prod.fst).Nodup := by
  induction l with
  | nil => intro gs h; simpa using h
  | cons c t ih =>
    intro gs h
    exact List.foldl_cons .. ▸ ih _ (addToGroup_keys_nodup _ _ h)

/-- Every bucket only holds changes whose group key is the bucket's label. -/
def GroupsLabelled (keyOf : DiffDetail → String)
    (gs : List (String × List DiffDetail)) : Prop :=
  ∀ g ∈ gs, ∀ c ∈ g.2, keyOf c = g.1

theorem addToGroup_labelled {keyOf : DiffDetail → String}
    {gs : List (String × List DiffDetail)} {change : DiffDetail}
    (h : GroupsLabelled keyOf gs) :
    GroupsLabelled keyOf (addToGroup gs (keyOf change) change) := by
  induction gs with
  | nil =>
    intro g hg c hc
    simp only [addToGroup, List.mem_singleton] at hg
    subst hg
    simp only [List.mem_singleton] at hc
    subst hc
    rfl
  | cons g0 gs ih =>
    intro g hg c hc
    by_cases hk : g0.1 = keyOf change
    · simp only [addToGroup, if_pos hk, List.mem_cons] at hg
      rcases hg with hg | hg
      · subst hg
        simp only at hc
        rcases List.mem_append.mp hc with hc | hc
        · exact h g0 (List.mem_cons_self _ _) c hc
        · simp only [List.mem_singleton] at hc
          subst hc
          exact hk.symm
      · exact h g (List.mem_cons_of_mem _ hg) c hc
    · simp only [addToGroup, if_neg hk, List.mem_cons] at hg
      rcases hg with hg | hg
      · subst hg
        exact h g (List.mem_cons_self _ _) c hc
      · exact ih (fun g' hg' => h g' (List.mem_cons_of_mem _ hg')) g hg c hc

theorem foldl_addToGroup_labelled (keyOf : DiffDetail → String) (l : List DiffDetail) :
    ∀ gs : List (String × List DiffDetail), GroupsLabelled keyOf gs →
      GroupsLabelled keyOf (l.foldl (fun a c => addToGroup a (keyOf c) c) gs) := by
  induction l with
  | nil => intro gs h; simpa using h
  | cons c t ih =>
    intro gs h
    exact List.foldl_cons .. ▸ ih _ (addToGroup_labelled h)

theorem groupedChanges_flatten_perm (groupBy : GroupBy) (filtered : List DiffDetail) :
    List.Perm (((groupedChanges groupBy filtered).map Prod.snd).flatten) filtered := by
  by_cases h : groupBy = GroupBy.none
  · simp [groupedChanges, h]
  · simpa [groupedChanges, h] using
      foldl_addToGroup_flatten_perm (groupKey groupBy) filtered []

theorem groupedChanges_labelled {groupBy : GroupBy} (h : groupBy ≠ GroupBy.none)
    (filtered : List DiffDetail) :
    GroupsLabelled (groupKey groupBy) (groupedChanges groupBy filtered) := by
  rw [groupedChanges, if_neg h]
  exact foldl_addToGroup_labelled (groupKey groupBy) filtered []
    (fun g hg => absurd hg (List.not_mem_nil g))

/-- C2: For every filtered change list and grouping mode, (a) the concatenation
of all bucket contents is a permutation of the filtered list — each filtered
change appears exactly once across the buckets; (b) bucket labels are pairwise
distinct, so in particular there is at most one fallback bucket; (c) when
grouping by endpoint, every change lacking an `endpoint_name` lands in a bucket
labelled `"Collection Level"`; (d) when grouping by type, each bucket's label
is the capitalized change type of every one of its members. -/
theorem groupedChanges_spec (filtered : List DiffDetail) (groupBy : GroupBy) :
    List.Perm (((groupedChanges groupBy filtered).map Prod.snd).flatten) filtered
    ∧ ((groupedChanges groupBy filtered).map Prod.fst).Nodup
    ∧ (∀ c ∈ filtered, c.endpoint_name = Option.none →
        ∃ g ∈ groupedChanges GroupBy.endpoint filtered,
          g.1 = "Collection Level" ∧ c ∈ g.2)
    ∧ (∀ g ∈ groupedChanges GroupBy.type filtered, ∀ c ∈ g.2,
        g.1 = capitalizeJS (changeTypeStr c.change_type)) := by
  refine ⟨groupedChanges_flatten_perm groupBy filtered, ?_, ?_, ?_⟩
  · by_cases h : groupBy = GroupBy.none
    · simp [groupedChanges, h]
    · rw [groupedChanges, if_neg h]
      exact foldl_addToGroup_keys_nodup (groupKey groupBy) filtered [] (by simp)
  · intro c hc hep
    have hmem : c ∈ ((groupedChanges GroupBy.endpoint filtered).map Prod.snd).flatten :=
      (groupedChanges_flatten_perm GroupBy.endpoint filtered).mem_iff.mpr hc
    rcases List.mem_flatten.mp hmem with ⟨b, hb, hcb⟩
    rcases List.mem_map.mp hb with ⟨g, hg, hgb⟩
    refine ⟨g, hg, ?_, hgb ▸ hcb⟩
    have := groupedChanges_labelled (by simp) filtered g hg c (hgb ▸ hcb)
    rw [← this, groupKey, hep]
  · intro g hg c hc
    exact (groupedChanges_labelled (by simp) filtered g hg c hc).symm

/-- Witness for C2 at a concrete filtered list: the change without an
`endpoint_name` lands in the `"Collection Level"` bucket. -/
theorem groupedChanges_spec_witness :
    ∃ g ∈ groupedChanges GroupBy.endpoint
        [{ id := 1, change_type := ChangeType.added, path := "item[0].request.url",
           human_path := "GET /users", endpoint_name := some "Get Users" },
         { id := 2, change_type := ChangeType.modified, path := "info.name",
           human_path := "Collection name", endpoint_name := Option.none }],
      g.1 = "Collection Level" ∧
        ({ id := 2, change_type := ChangeType.modified, path := "info.name",
           human_path := "Collection name", endpoint_name := Option.none } : DiffDetail) ∈ g.2 :=
  (groupedChanges_spec
      [{ id := 1, change_type := ChangeType.added, path := "item[0].request.url",
         human_path := "GET /users", endpoint_name := some "Get Users" },
       { id := 2, change_type := ChangeType.modified, path := "info.name",
         human_path := "Collection name", endpoint_name := Option.none }]
      GroupBy.endpoint).2.2.1 _ (by simp) rfl

/-! ## Diff-browser view state (client-paginated `DisplaySnapshotDiff`) -/

/-- The state of the client-paginated diff browser that the modelled logic
reads and writes. -/
structure DiffViewState where
  diffData : Option DiffResponse
  searchTerm : String
  filterType : FilterType
  groupBy : GroupBy
  selectedChange : Option DiffDetail
  currentChangeIndex : Int
deriving DecidableEq, Repr

/-- Models `diffData?.changes.filter(...) || []`. -/
def filteredChangesOf (st : DiffViewState) : List DiffDetail :=
  match st.diffData with
  | some d => filteredChanges d.changes st.searchTerm st.filterType
  | Option.none => []

/-- Models `filteredChanges.findIndex(c => c.id === selectedChange?.id)`: `-1` when no
element matches (in particular when nothing is selected, since
`number === undefined` is false). -/
def jsFindIndexById (l : List DiffDetail) (sel : Option DiffDetail) : Int :=
  match l.findIdx? (fun c =>
      match sel with
      | some sc => decide (c.id = sc.id)
      | Option.none => false) with
  | some i => (i : Int)
  | Option.none => -1

inductive NavDirection where
  | prev
  | next
deriving DecidableEq, Repr

/-- Models `navigateChange(direction)`: move the selection to the adjacent entry of
the currently filtered list; list indexing is total (`l[i]?`), mirroring
JavaScript's `undefined` on out-of-bounds access. -/
def navigateChange (st : DiffViewState) (dir : NavDirection) : DiffViewState :=
  let filtered := filteredChangesOf st
  let currentIndex : Int := jsFindIndexById filtered st.selectedChange
  if dir = NavDirection.prev ∧ currentIndex > 0 then
    { st with selectedChange := filtered[(currentIndex - 1).toNat]?,
              currentChangeIndex := currentIndex - 1 }
  else if dir = NavDirection.next ∧ currentIndex < (filtered.length : Int) - 1 then
    { st with selectedChange := filtered[(currentIndex + 1).toNat]?,
              currentChangeIndex := currentIndex + 1 }
  else st

/-- The `useEffect` on `[diffData]`: select the first change (or clear the
selection when the new set is empty), reset the index to 0, and clear the
search term and type filter. -/
def resetOnDiffData (st : DiffViewState) (diffData : Option DiffResponse) : DiffViewState :=
  let base : DiffViewState := { st with diffData := diffData }
  match diffData with
  | some d =>
    match d.changes with
    | c :: _ =>
      { base with selectedChange := some c, currentChangeIndex := 0,
                  searchTerm := "", filterType := FilterType.all }
    | [] =>
      { base with selectedChange := Option.none, currentChangeIndex := 0,
                  searchTerm := "", filterType := FilterType.all }
  | Option.none =>
    { base with selectedChange := Option.none, currentChangeIndex := 0,
                searchTerm := "", filterType := FilterType.all }

/-! ## Server-paginated `DisplaySnapshotDiff` state -/

/-- The state of the server-paginated diff browser that the modelled reset
effects read and write. -/
structure ServerDiffState where
  diffData : Option DiffResponse
  searchTerm : String
  filterType : FilterType
  groupBy : GroupBy
  page : Nat
  selectedChange : Option DiffDetail
deriving DecidableEq, Repr

/-- The `useEffect` on `[debouncedSearchTerm, filterType, groupBy]`:
`setSelectedChange(null); setPage(1)`. -/
def onCriteriaChange (st : ServerDiffState) : ServerDiffState :=
  { st with selectedChange := Option.none, page := 1 }

/-- Models `setDiffData(response)` followed by the `useEffect` on
`[diffData, selectedChange]`: `if (diffData && diffData.changes.length > 0 &&
!selectedChange) setSelectedChange(diffData.changes[0])`. -/
def applyFetchSuccess (st : ServerDiffState) (response : DiffResponse) : ServerDiffState :=
  let st1 := { st with diffData := some response }
  match response.changes, st1.selectedChange with
  | c :: _, Option.none => { st1 with selectedChange := some c }
  | _, _ => st1

/-- C3: In the client-paginated diff browser, whenever the `diffData` prop
changes to a new change-set the selection resets to the first item of the new
change list (`none` when it is empty) and the index to 0; in the
server-paginated diff browser, changing only the (debounced) search text, the
type filter, or the grouping criterion clears the selection and resets
pagination to page 1, and the following successful fetch re-selects the first
item of the newly fetched list (or leaves it `none` when empty) with the page
still 1. -/
theorem selection_reset_spec :
    (∀ (st : DiffViewState) (d : DiffResponse),
      (resetOnDiffData st (some d)).selectedChange = d.changes.head?
      ∧ (resetOnDiffData st (some d)).currentChangeIndex = 0
      ∧ (resetOnDiffData st Option.none).selectedChange = Option.none)
    ∧ (∀ (st : ServerDiffState) (d : DiffResponse),
      (onCriteriaChange st).selectedChange = Option.none
      ∧ (onCriteriaChange st).page = 1
      ∧ (applyFetchSuccess (onCriteriaChange st) d).selectedChange = d.changes.head?
      ∧ (applyFetchSuccess (onCriteriaChange st) d).page = 1) := by
  constructor
  · intro st d
    cases hd : d.changes with
    | nil => simp [resetOnDiffData, hd]
    | cons c t => simp [resetOnDiffData, hd]
  · intro st d
    cases hd : d.changes with
    | nil => simp [applyFetchSuccess, onCriteriaChange, hd]
    | cons c t => simp [applyFetchSuccess, onCriteriaChange, hd]

/-- C4: prev/next navigation acts on the currently filtered list: with the
selected change found at index `i` of the filtered list, `prev` is a no-op at
`i = 0` and otherwise selects the filtered list's entry at `i - 1`; `next` is a
no-op at the last index and otherwise selects the entry at `i + 1` — never
wrapping around. -/
theorem getElemZero_eq_headOpt {α : Type} (l : List α) : l[0]? = l.head? := by
  cases l <;> simp

/-- Equation lemma: `navigateChange` with its local bindings expanded. -/
theorem navigateChange_eq_ite (st : DiffViewState) (dir : NavDirection) :
    navigateChange st dir =
      if dir = NavDirection.prev ∧
          jsFindIndexById (filteredChangesOf st) st.selectedChange > 0 then
        { st with
            selectedChange := (filteredChangesOf st)[
              (jsFindIndexById (filteredChangesOf st) st.selectedChange - 1).toNat]?,
            currentChangeIndex := jsFindIndexById (filteredChangesOf st) st.selectedChange - 1 }
      else if dir = NavDirection.next ∧
          jsFindIndexById (filteredChangesOf st) st.selectedChange <
            ((filteredChangesOf st).length : Int) - 1 then
        { st with
            selectedChange := (filteredChangesOf st)[
              (jsFindIndexById (filteredChangesOf st) st.selectedChange + 1).toNat]?,
            currentChangeIndex := jsFindIndexById (filteredChangesOf st) st.selectedChange + 1 }
      else st := rfl

theorem navigateChange_boundary_spec (st : DiffViewState) :
    (jsFindIndexById (filteredChangesOf st) st.selectedChange = 0 →
      navigateChange st NavDirection.prev = st)
    ∧ (jsFindIndexById (filteredChangesOf st) st.selectedChange =
        ((filteredChangesOf st).length : Int) - 1 →
      navigateChange st NavDirection.next = st)
    ∧ (∀ i : Nat, jsFindIndexById (filteredChangesOf st) st.selectedChange = (i : Int) →
        0 < i →
        navigateChange st NavDirection.prev =
          { st with selectedChange := (filteredChangesOf st)[i - 1]?,
                    currentChangeIndex := (i : Int) - 1 })
    ∧ (∀ i : Nat, jsFindIndexById (filteredChangesOf st) st.selectedChange = (i : Int) →
        (i : Int) < ((filteredChangesOf st).length : Int) - 1 →
        navigateChange st NavDirection.next =
          { st with selectedChange := (filteredChangesOf st)[i + 1]?,
                    currentChangeIndex := (i : Int) + 1 }) := by
  refine ⟨fun h0 => ?_, fun hlast => ?_, fun i hi hpos => ?_, fun i hi hlt => ?_⟩
  · rw [navigateChange_eq_ite, h0]
    rw [if_neg (fun hc => absurd hc.2 (lt_irrefl 0)),
      if_neg (fun hc => NavDirection.noConfusion hc.1)]
  · rw [navigateChange_eq_ite, hlast]
    rw [if_neg (fun hc => NavDirection.noConfusion hc.1),
      if_neg (fun hc => absurd hc.2 (lt_irrefl _))]
  · rw [navigateChange_eq_ite, hi]
    rw [if_pos ⟨rfl, by exact_mod_cast hpos⟩]
    rw [show ((i : Int) - 1).toNat = i - 1 by omega]
  · rw [navigateChange_eq_ite, hi]
    rw [if_neg (fun hc => NavDirection.noConfusion hc.1), if_pos ⟨rfl, hlt⟩]
    rw [show ((i : Int) + 1).toNat = i + 1 by omega]

/-- A sample change used by concrete witnesses. -/
def usersChange : DiffDetail :=
  { id := 7, change_type := ChangeType.added, path := "item[0].request.url",
    human_path := "GET /users", endpoint_name := some "Get Users" }

/-- A second sample change, absent from the sample diff below. -/
def ordersChange : DiffDetail :=
  { id := 9, change_type := ChangeType.deleted, path := "item[1].request.url",
    human_path := "GET /orders", endpoint_name := Option.none }

/-- A sample one-change diff payload used by concrete witnesses. -/
def sampleDiff : DiffResponse :=
  { old_snapshot_id := 1, new_snapshot_id := 2, changes := [usersChange] }

/-- A sample view state whose selection is the only filtered change. -/
def sampleViewState : DiffViewState :=
  { diffData := some sampleDiff, searchTerm := "", filterType := FilterType.all,
    groupBy := GroupBy.endpoint, selectedChange := some usersChange,
    currentChangeIndex := 0 }

/-- Witness for C4 at a concrete state: with the selection on the last filtered
entry, `next` leaves the state unchanged. -/
theorem navigateChange_boundary_spec_witness :
    navigateChange sampleViewState NavDirection.next = sampleViewState :=
  (navigateChange_boundary_spec sampleViewState).2.1 (by decide)

/-- C9: when the selected change's id does not occur in the currently filtered
list (JavaScript `findIndex` gives `-1`), `prev` leaves the state unchanged,
and `next` leaves it unchanged when the filtered list is empty but selects the
filtered list's first element (index 0) when it is non-empty. -/
theorem navigateChange_missing_selection_spec (st : DiffViewState) (sc : DiffDetail)
    (hsel : st.selectedChange = some sc)
    (hnot : ∀ c ∈ filteredChangesOf st, c.id ≠ sc.id) :
    navigateChange st NavDirection.prev = st
    ∧ (filteredChangesOf st = [] → navigateChange st NavDirection.next = st)
    ∧ (filteredChangesOf st ≠ [] →
        navigateChange st NavDirection.next =
          { st with selectedChange := (filteredChangesOf st).head?,
                    currentChangeIndex := 0 }) := by
  have hidx : jsFindIndexById (filteredChangesOf st) st.selectedChange = -1 := by
    rw [jsFindIndexById, hsel]
    rw [List.findIdx?_eq_none_iff.mpr (fun c hc => by simpa using hnot c hc)]
  refine ⟨?_, fun hemp => ?_, fun hne => ?_⟩
  · rw [navigateChange_eq_ite, hidx]
    rw [if_neg (fun hc => absurd hc.2 (by decide)),
      if_neg (fun hc => NavDirection.noConfusion hc.1)]
  · rw [navigateChange_eq_ite, hidx, hemp]
    rw [if_neg (fun hc => NavDirection.noConfusion hc.1),
      if_neg (fun hc => absurd hc.2 (by decide))]
  · have hlen : 0 < (filteredChangesOf st).length := List.length_pos.mpr hne
    rw [navigateChange_eq_ite, hidx]
    rw [if_neg (fun hc => NavDirection.noConfusion hc.1), if_pos ⟨rfl, by omega⟩]
    rw [show ((-1 : Int) + 1).toNat = 0 by decide, show (-1 : Int) + 1 = 0 by decide,
      getElemZero_eq_headOpt]

/-- Witness for C9 at a concrete state: the selected id 9 is absent from the
filtered list, and `next` selects the filtered list's first element. -/
theorem navigateChange_missing_selection_spec_witness :
    navigateChange { sampleViewState with selectedChange := some ordersChange }
        NavDirection.next
      = { sampleViewState with selectedChange := some usersChange } := by
  rw [(navigateChange_missing_selection_spec
      { sampleViewState with selectedChange := some ordersChange }
      ordersChange rfl (by decide)).2.2 (by decide)]
  decide

/-! ## Browser-global state and the shared API client (`services/api.ts`) -/

/-- Models `localStorage.getItem(key)`. -/
def getItem (storage : List (String × String)) (key : String) : Option String :=
  (storage.find? (fun p => decide (p.1 = key))).map Prod.snd

/-- Models `localStorage.removeItem(key)`. -/
def removeItem (storage : List (String × String)) (key : String) :
    List (String × String) :=
  storage.filter (fun p => decide (p.1 ≠ key))

/-- The browser-global state the interceptors touch: localStorage and
`window.location.href`. -/
structure BrowserState where
  storage : List (String × String)
  href : String
deriving DecidableEq, Repr

/-- JavaScript truthiness of a `string | null` value: both `null` and the
empty string are falsy. -/
def jsTruthyStr : Option String → Bool
  | some s => decide (s ≠ "")
  | Option.none => false

/-- The request interceptor: `const token = localStorage.getItem('user_auth_token');
if (token) config.headers.Authorization = 'Bearer ' + token` — the `if (token)`
is a truthiness check, so a stored empty string attaches no header. -/
def requestAuthorizationHeader (st : BrowserState) : Option String :=
  let token := getItem st.storage "user_auth_token"
  if jsTruthyStr token then token.map (fun t => "Bearer " ++ t) else Option.none

/-- Models `authService.logout()`: `localStorage.removeItem('user_auth_token')`. -/
def logoutState (st : BrowserState) : BrowserState :=
  { st with storage := removeItem st.storage "user_auth_token" }

/-- The `AuthProvider` mount effect:
`setIsAuthenticated(!!localStorage.getItem('user_auth_token'))` — `!!` is the
same truthiness coercion, false for a stored empty string. -/
def authProviderMountAuthenticated (st : BrowserState) : Bool :=
  jsTruthyStr (getItem st.storage "user_auth_token")

/-- One HTTP response as seen by the response interceptor: either a success, or
an axios error with `error.response?.status` (`none` = network error, no
response), the `retry-after` header, `error.response.data?.message`, and
`error.message`. -/
inductive HttpResponse where
  | success (body : String)
  | failure (status : Option Nat) (retryAfterHeader : Option String)
      (dataMessage : Option String) (errorMessage : String)
deriving DecidableEq, Repr

/-- How a processed request ends: resolved with the response, rejected with the
untouched original axios error (`Promise.reject(error)`), or rejected with a
freshly constructed `Error(message)`. -/
inductive RequestOutcome where
  | resolved (body : String)
  | rejectedOriginal (status : Nat)
  | rejectedMessage (message : String)
deriving DecidableEq, Repr

/-- Models `error.response.data?.message || error.message || 'An error occurred'`
(empty strings are falsy). -/
def failureMessage (dataMessage : Option String) (errorMessage : String) : String :=
  match dataMessage with
  | some m => if m ≠ "" then m else (if errorMessage ≠ "" then errorMessage else "An error occurred")
  | Option.none => if errorMessage ≠ "" then errorMessage else "An error occurred"

/-- Models `(parseInt(retryAfter) || 60)`: the seconds waited before the 429 retry;
`parseInt(undefined)` is `NaN`, and both `NaN` and `0` are falsy. -/
def retryDelaySeconds (retryAfterHeader : Option String) : Int :=
  match (match retryAfterHeader with
         | some s => jsParseInt s
         | Option.none => none) with
  | some n => if n = 0 then 60 else n
  | Option.none => 60

/-- The response interceptor of the shared axios instance, run against the
sequence of responses the server would give to the successive attempts of one
logical request.  A 401 removes the persisted token, redirects to `/` and
rejects the original error; a 429 waits `retryDelaySeconds` and re-issues the
request through the same instance (hence through this same interceptor); no
response rejects a network-error message; any other error status rejects
`failureMessage`.  Returns the final browser state, the list of delays (in
seconds) that were awaited, and the outcome.  (The empty-stream case is a
model artifact: a real attempt always gets some response.) -/
def processResponses (st : BrowserState) :
    List HttpResponse → BrowserState × List Int × RequestOutcome
  | [] => (st, [], RequestOutcome.rejectedMessage "no response")
  | r :: rest =>
    match r with
    | HttpResponse.success body => (st, [], RequestOutcome.resolved body)
    | HttpResponse.failure status retryAfter dataMessage errorMessage =>
      if status = some 401 then
        ({ storage := removeItem st.storage "user_auth_token", href := "/" }, [],
          RequestOutcome.rejectedOriginal 401)
      else if status = some 429 then
        let res := processResponses st rest
        (res.1, retryDelaySeconds retryAfter :: res.2.1, res.2.2)
      else
        match status with
        | Option.none => (st, [], RequestOutcome.rejectedMessage
            "Network error. Please check your connection.")
        | some _ => (st, [], RequestOutcome.rejectedMessage
            (failureMessage dataMessage errorMessage))

theorem getItem_removeItem (storage : List (String × String)) (key : String) :
    getItem (removeItem storage key) key = Option.none := by
  induction storage with
  | nil => rfl
  | cons p t ih =>
    rw [removeItem] at ih ⊢
    rw [List.filter_cons]
    by_cases h : p.1 = key
    · rw [if_neg (by simp [h])]
      exact ih
    · rw [if_pos (by simp [h])]
      rw [getItem, List.find?_cons_of_neg _ (by simp [h])]
      rw [getItem] at ih
      exact ih

/-- C10 fails as stated at a stored empty-string token: the value `""` is
stored under `'user_auth_token'`, yet the request interceptor attaches no
Authorization header, because the source guards with the truthiness check
`if (token)` and the empty string is falsy. -/
theorem authorization_header_presence_counterexample :
    getItem [("user_auth_token", "")] "user_auth_token" = some ""
    ∧ requestAuthorizationHeader { storage := [("user_auth_token", "")], href := "/app" }
      = Option.none :=
  ⟨by decide, by decide⟩

/-- C10 (amended): the request interceptor attaches an Authorization header iff
a non-empty token is stored under `'user_auth_token'` at the time the request
is built (a stored empty string is falsy and attaches no header); when a
non-empty token `t` is stored, the header is `Bearer t`; and after `logout()`
removes the key, requests built from the resulting state carry no
Authorization header. -/
theorem authorization_header_spec (st : BrowserState) :
    ((requestAuthorizationHeader st).isSome ↔
      (∃ t, getItem st.storage "user_auth_token" = some t ∧ t ≠ ""))
    ∧ (∀ t, getItem st.storage "user_auth_token" = some t → t ≠ "" →
        requestAuthorizationHeader st = some ("Bearer " ++ t))
    ∧ requestAuthorizationHeader (logoutState st) = Option.none := by
  refine ⟨?_, fun t ht hne => ?_, ?_⟩
  · cases hg : getItem st.storage "user_auth_token" with
    | none => simp [requestAuthorizationHeader, hg, jsTruthyStr]
    | some t =>
      by_cases hne : t = ""
      · subst hne
        simp [requestAuthorizationHeader, hg, jsTruthyStr]
      · simp [requestAuthorizationHeader, hg, jsTruthyStr, hne]
  · simp [requestAuthorizationHeader, ht, jsTruthyStr, hne]
  · simp [requestAuthorizationHeader, logoutState, getItem_removeItem, jsTruthyStr]

/-- Witness for C10 (amended) at a concrete storage: the stored non-empty
token is sent as a bearer header. -/
theorem authorization_header_spec_witness :
    requestAuthorizationHeader
        { storage := [("user_auth_token", "tok123")], href := "/app" }
      = some "Bearer tok123" :=
  (authorization_header_spec
      { storage := [("user_auth_token", "tok123")], href := "/app" }).2.1
    "tok123" (by decide) (by decide)

/-- C7: a 401 response removes the persisted `'user_auth_token'`, redirects to
`/`, rejects the original error to the caller without any retry, and on a
subsequent mount the auth provider finds no persisted token and reports
unauthenticated. -/
theorem interceptor_401_logout_spec (st : BrowserState) (retryAfter dataMessage : Option String)
    (errorMessage : String) (rest : List HttpResponse) :
    (processResponses st
        (HttpResponse.failure (some 401) retryAfter dataMessage errorMessage :: rest)).1.href = "/"
    ∧ getItem (processResponses st
        (HttpResponse.failure (some 401) retryAfter dataMessage errorMessage :: rest)).1.storage
        "user_auth_token" = Option.none
    ∧ authProviderMountAuthenticated (processResponses st
        (HttpResponse.failure (some 401) retryAfter dataMessage errorMessage :: rest)).1 = false
    ∧ (processResponses st
        (HttpResponse.failure (some 401) retryAfter dataMessage errorMessage :: rest)).2
      = ([], RequestOutcome.rejectedOriginal 401) := by
  have hrun : processResponses st
      (HttpResponse.failure (some 401) retryAfter dataMessage errorMessage :: rest)
      = ({ storage := removeItem st.storage "user_auth_token", href := "/" }, [],
        RequestOutcome.rejectedOriginal 401) := by
    rw [processResponses]
    rw [if_pos rfl]
  rw [hrun]
  refine ⟨rfl, getItem_removeItem st.storage "user_auth_token", ?_, rfl⟩
  rw [authProviderMountAuthenticated, getItem_removeItem]
  rfl

/-! ## The 429 retry path -/

/-- C6 as stated is false: a request answered `429, 429, 200` is retried twice
(two awaited 60-second delays) and then resolves — after the first retry fails
with another 429 the client does not give up, because the retried request goes
through the same interceptor with no single-retry guard. -/
theorem interceptor_429_single_retry_counterexample :
    (processResponses { storage := [], href := "/app" }
        [HttpResponse.failure (some 429) Option.none Option.none "",
         HttpResponse.failure (some 429) Option.none Option.none "",
         HttpResponse.success "ok"]).2.1 = [60, 60]
    ∧ (processResponses { storage := [], href := "/app" }
        [HttpResponse.failure (some 429) Option.none Option.none "",
         HttpResponse.failure (some 429) Option.none Option.none "",
         HttpResponse.success "ok"]).2.2 = RequestOutcome.resolved "ok"
    ∧ (processResponses { storage := [], href := "/app" }
        [HttpResponse.failure (some 429) Option.none Option.none "",
         HttpResponse.failure (some 429) Option.none Option.none "",
         HttpResponse.success "ok"]).2.1.length ≠ 1 := by
  refine ⟨rfl, rfl, by decide⟩

/-- C6 (amended): every 429 response triggers one delayed retry of the same
request, waiting `parseInt(retry-after) || 60` seconds (60 when the header is
absent, unparseable, or parses to 0); the retried request is processed by the
same interceptor, so its outcome — including a further 429 retry — is exactly
that of the remaining response stream, and a retry failing in any other way
propagates that failure. -/
theorem interceptor_429_retry_spec (st : BrowserState) (retryAfter dataMessage : Option String)
    (errorMessage : String) (rest : List HttpResponse) :
    processResponses st
        (HttpResponse.failure (some 429) retryAfter dataMessage errorMessage :: rest)
      = ((processResponses st rest).1,
          retryDelaySeconds retryAfter :: (processResponses st rest).2.1,
          (processResponses st rest).2.2)
    ∧ retryDelaySeconds Option.none = 60
    ∧ (∀ s, jsParseInt s = Option.none → retryDelaySeconds (some s) = 60)
    ∧ retryDelaySeconds (some "0") = 60 := by
  refine ⟨?_, rfl, fun s hs => ?_, by decide⟩
  · rw [processResponses]
    rw [if_neg (by decide), if_pos rfl]
  · rw [retryDelaySeconds, hs]

/-- Witness for C6 (amended) at a concrete stream: one 429 with an unparseable
`retry-after` header followed by a success yields a single 60-second delayed
retry that resolves. -/
theorem interceptor_429_retry_spec_witness :
    processResponses { storage := [], href := "/app" }
        [HttpResponse.failure (some 429) (some "soon") Option.none "",
         HttpResponse.success "ok"]
      = ({ storage := [], href := "/app" }, [60], RequestOutcome.resolved "ok") := by
  rw [(interceptor_429_retry_spec { storage := [], href := "/app" }
      (some "soon") Option.none "" [HttpResponse.success "ok"]).1]
  rw [(interceptor_429_retry_spec { storage := [], href := "/app" }
      (some "soon") Option.none "" [HttpResponse.success "ok"]).2.2.1 "soon" (by decide)]
  rfl

/-! ## The diff fetch URL (`fetchDiffData` → `changesService.getSnapshotDiff`) -/

/-- The optional-parameter object `getSnapshotDiff` expects
(`SnapshotDiffParams` in `services/api.ts`). -/
structure SnapshotDiffParams where
  pageSize : Option Nat
  page : Option Nat
  filterType : Option String
  sortOrder : Option String
deriving DecidableEq, Repr

/-- A `URLSearchParams` object: an ordered list of key/value entries. -/
structure URLSearchParamsObj where
  pairs : List (String × String)
deriving DecidableEq, Repr

/-- Models `changesService.getSnapshotDiff`: build the query string from the truthy
fields of the params object (`if (params?.pageSize) …` — `0`, `''` and
`undefined` are falsy) and append it after `?` when non-empty.  The values
appended by the repository are plain enough that `URLSearchParams.toString`
percent-encoding is the identity on them. -/
def getSnapshotDiffUrl (collectionId : String) (snapshotId : Nat)
    (params : Option SnapshotDiffParams) : String :=
  let queryParams : List (String × String) :=
    match params with
    | some p =>
      (match p.pageSize with
       | some n => if n ≠ 0 then [("pageSize", toString n)] else []
       | Option.none => [])
      ++ (match p.page with
          | some n => if n ≠ 0 then [("page", toString n)] else []
          | Option.none => [])
      ++ (match p.filterType with
          | some s => if s ≠ "" then [("filterType", s)] else []
          | Option.none => [])
      ++ (match p.sortOrder with
          | some s => if s ≠ "" then [("sortOrder", s)] else []
          | Option.none => [])
    | Option.none => []
  let queryString := String.intercalate "&" (queryParams.map (fun p => p.1 ++ "=" ++ p.2))
  "/collections/" ++ collectionId ++ "/changes/diff/" ++ toString snapshotId ++
    (if queryString ≠ "" then "?" ++ queryString else "")

/-- The `URLSearchParams` the server-paginated `DisplaySnapshotDiff` builds in
`fetchDiffData` from its current state. -/
def fetchDiffRequestParams (debouncedSearchTerm : String) (filterType : FilterType)
    (groupBy : GroupBy) (page pageSize : Nat) : URLSearchParamsObj :=
  { pairs := [("search", debouncedSearchTerm),
              ("filter_type", filterTypeStr filterType),
              ("group_by", groupByStr groupBy),
              ("page", toString page),
              ("page_size", toString pageSize)] }

/-- What `getSnapshotDiff` sees when `fetchDiffData` passes it a
`URLSearchParams` instance: the property reads `params?.pageSize`,
`params?.page`, `params?.filterType` and `params?.sortOrder` all yield
`undefined`, because a `URLSearchParams` object keeps its entries internally
and exposes none of these names as properties. -/
def readAsSnapshotDiffParams (_params : URLSearchParamsObj) : SnapshotDiffParams :=
  { pageSize := Option.none, page := Option.none,
    filterType := Option.none, sortOrder := Option.none }

/-- The URL `fetchDiffData` ends up requesting for the current state. -/
def fetchDiffUrl (collectionId : String) (snapshotId : Nat)
    (debouncedSearchTerm : String) (filterType : FilterType) (groupBy : GroupBy)
    (page pageSize : Nat) : String :=
  getSnapshotDiffUrl collectionId snapshotId
    (some (readAsSnapshotDiffParams
      (fetchDiffRequestParams debouncedSearchTerm filterType groupBy page pageSize)))

/-- C5 fails on the code: at the failing input (search `"users"`, filter
`added`, grouping `endpoint`, page 2, page size 50) the requested URL is the
bare `/collections/col1/changes/diff/5` — the query parameters built by the
component are dropped, because `getSnapshotDiff` reads
`pageSize`/`page`/`filterType`/`sortOrder` fields off the passed
`URLSearchParams`, none of which exist.  In particular no `search=` parameter
is sent. -/
theorem fetchDiffUrl_drops_query_params :
    fetchDiffUrl "col1" 5 "users" FilterType.added GroupBy.endpoint 2 50
      = "/collections/col1/changes/diff/5"
    ∧ strIncludes (fetchDiffUrl "col1" 5 "users" FilterType.added GroupBy.endpoint 2 50)
        "search=" = false := by
  refine ⟨rfl, by decide⟩

/-! ## Collection import (`handleCollectionImported`) -/

/-- A stored collection; only the fields the import handler reads. -/
structure Collection where
  id : String
  name : String
deriving DecidableEq, Repr

/-- Models `handleCollectionImported`: append the imported collection to the held
list unless an entry with its id already exists. -/
def handleCollectionImported (prev : List Collection) (collection : Collection) :
    List Collection :=
  if prev.any (fun c => decide (c.id = collection.id)) then prev
  else prev ++ [collection]

/-- C8: importing never creates a second entry with the imported id — the
number of entries carrying the imported id after the import is its previous
count when the id was already present, and exactly 1 otherwise; a list with
pairwise-distinct ids keeps pairwise-distinct ids; and re-running the import
notification with the same collection leaves the list unchanged. -/
theorem handleCollectionImported_spec (prev : List Collection) (collection : Collection) :
    (((handleCollectionImported prev collection).map Collection.id).count collection.id
      = if collection.id ∈ prev.map Collection.id
        then (prev.map Collection.id).count collection.id
        else 1)
    ∧ ((prev.map Collection.id).Nodup →
        ((handleCollectionImported prev collection).map Collection.id).Nodup)
    ∧ handleCollectionImported (handleCollectionImported prev collection) collection
      = handleCollectionImported prev collection := by
  have hany : (prev.any (fun c => decide (c.id = collection.id)) = true) ↔
      collection.id ∈ prev.map Collection.id := by
    simp only [List.any_eq_true, decide_eq_true_eq, List.mem_map]
  by_cases h : prev.any (fun c => decide (c.id = collection.id)) = true
  · have hmem : collection.id ∈ prev.map Collection.id := hany.mp h
    rw [handleCollectionImported, if_pos h]
    refine ⟨by rw [if_pos hmem], fun hd => hd, ?_⟩
    rw [handleCollectionImported, if_pos h]
  · have hmem : collection.id ∉ prev.map Collection.id := fun hm => h (hany.mpr hm)
    rw [handleCollectionImported, if_neg h]
    refine ⟨?_, fun hd => ?_, ?_⟩
    · rw [if_neg hmem, List.map_append, List.count_append]
      rw [List.count_eq_zero.mpr hmem]
      simp
    · rw [List.map_append]
      exact List.Nodup.append hd (by simp) (by simpa using hmem)
    · rw [handleCollectionImported, if_pos (by simp [List.any_eq_true])]

/-- Witness for C8 at a concrete list: importing the same collection twice
keeps one entry, with pairwise-distinct ids. -/
theorem handleCollectionImported_spec_witness :
    ((handleCollectionImported
        (handleCollectionImported [] { id := "c1", name := "Payments" })
        { id := "c1", name := "Payments" }).map Collection.id).Nodup
    ∧ handleCollectionImported
        (handleCollectionImported [] { id := "c1", name := "Payments" })
        { id := "c1", name := "Payments" }
      = handleCollectionImported [] { id := "c1", name := "Payments" } := by
  refine ⟨?_, (handleCollectionImported_spec [] { id := "c1", name := "Payments" }).2.2⟩
  rw [(handleCollectionImported_spec [] { id := "c1", name := "Payments" }).2.2]
  exact (handleCollectionImported_spec [] { id := "c1", name := "Payments" }).2.1 (by decide)

end Integrator
